import Mathlib

/-!
Verification of the ESP8266 MakeCode library (AT-command transport, HTTP
client, Firebase REST client) against its natural-language specification.

The TypeScript sources are shallowly embedded:
* the half-duplex serial channel is modelled by the list of string chunks
  that `serial.readString()` yields on successive poll iterations (an empty
  chunk list / exhausted list yields `""`, exactly as a quiet channel does);
* wall-clock timeouts are modelled by the number of poll iterations the
  timed `while` loop performs before the deadline (`fuel`), since each
  iteration costs nonzero time and the loops carry no other time dependence;
* the outcomes of nested `sendCommand` calls inside higher-level operations
  are abstracted by Boolean knobs in a per-call environment record, and the
  serial side effects of an operation are recorded as an event trace;
* numbers are modelled by `Rat` (the parser only performs +, *, / by powers
  of ten on decimal digits);
* the mutable namespace globals (`esp8266Initialized`, `wifiConnected`,
  `firebaseApiKey`, ...) are gathered in an explicit state record `St`.
-/

namespace Esp

/-- Test whether `p` is a prefix of `l` (Boolean, by character equality).
Used to embed JavaScript `String.indexOf`-based substring tests. -/
def startsWithSeg : List Char → List Char → Bool
  | [], _ => true
  | _ :: _, [] => false
  | p :: ps, c :: cs => p == c && startsWithSeg ps cs

/-- Test whether `pat` occurs as a contiguous segment of `l`. -/
def hasSeg (pat : List Char) : List Char → Bool
  | [] => startsWithSeg pat []
  | c :: cs => startsWithSeg pat (c :: cs) || hasSeg pat cs

/-- Embedding of the JavaScript test `s.indexOf(pat) >= 0`
(substring containment; always true for the empty pattern). -/
def containsSub (s pat : String) : Bool := hasSeg pat.data s.data

/-- Contents of the accumulated receive buffer, starting from `buf`, after
`n` further poll iterations against the chunk stream `chunks`
(`rxData += serial.readString()` appends one chunk per iteration; a drained
stream appends `""`). -/
def accumFrom (buf : String) (chunks : List String) : Nat → String
  | 0 => buf
  | n + 1 => accumFrom (buf ++ chunks.headD "") chunks.tail n

/-- Contents of the receive buffer after `n` poll iterations, starting empty
(`rxData = ""` at the start of each exchange). -/
def accum (chunks : List String) (n : Nat) : String := accumFrom "" chunks n

/-- Polling loop of `sendCommand` (part_000 lines 31-37): each iteration
appends the available bytes, then checks the expected marker first and the
literal `"ERROR"` marker second; expiry of the timeout returns `false`. -/
def sendCommandPoll (expected : String) : Nat → List String → String → Bool
  | 0, _, _ => false
  | fuel + 1, chunks, buf =>
    let buf' := buf ++ chunks.headD ""
    if containsSub buf' expected then true
    else if containsSub buf' "ERROR" then false
    else sendCommandPoll expected fuel chunks.tail buf'

/-- Embedding of `sendCommand` (part_000 lines 20-38).  The command write
itself has no observable effect on the return value; `expected = none`
models the TypeScript default `expected = null` (return `true` immediately,
no polling).  `fuel` is the number of poll iterations the timeout allows,
`chunks` the successive results of `serial.readString()`. -/
def sendCommand (expected : Option String) (fuel : Nat) (chunks : List String) : Bool :=
  match expected with
  | none => true
  | some e => sendCommandPoll e fuel chunks ""

/-- Embedding of `getResponse` (part_000 lines 44-56): accumulate chunks;
return early only when `expected` is nonempty and found; on timeout return
whatever accumulated (possibly `""`). -/
def getResponse (expected : String) : Nat → List String → String → String
  | 0, _, buf => buf
  | fuel + 1, chunks, buf =>
    let buf' := buf ++ chunks.headD ""
    if expected ≠ "" ∧ containsSub buf' expected then buf'
    else getResponse expected fuel chunks.tail buf'

/-- Embedding of `cleanPath` (firebase.ts lines 35-40): drop one leading
slash if present (`charAt(0) == "/"`). -/
def cleanPath (path : String) : String :=
  if path.data.head? = some '/' then path.drop 1 else path

/-- Embedding of `extractHost` (firebase.ts lines 20-32).  Note the source
tests occurrence anywhere (`indexOf(...) >= 0`) but always drops a
fixed-length *leading* chunk (`substr(8)` / `substr(7)`), and then drops one
trailing slash (`charAt(length-1) == "/"`). -/
def extractHost (url : String) : String :=
  let host := url
  let host := if containsSub host "https://" then host.drop 8 else host
  let host := if containsSub host "http://" then host.drop 7 else host
  if host.data.getLast? = some '/' then host.take (host.length - 1) else host

/-- Numeric-cleanup scan of `readFirebaseString` (firebase.ts lines
233-241): keep each digit/dot/minus character; any other character is
skipped while nothing has been kept yet and terminates the scan once
something has been kept (`else if (cleanBody.length > 0) break`). -/
def cleanScan : List Char → String → String
  | [], acc => acc
  | c :: cs, acc =>
    if ('0' ≤ c ∧ c ≤ '9') ∨ c = '.' ∨ c = '-' then cleanScan cs (acc.push c)
    else if acc.length > 0 then acc
    else cleanScan cs acc

/-- Index of the first `'"'` in a character list (used to embed
`body.indexOf("\x22", 1)`, which searches from position 1 onward). -/
def firstQuoteIdx : List Char → Option Nat
  | [] => none
  | c :: cs => if c = '"' then some 0 else (firstQuoteIdx cs).map Nat.succ

/-- Split a character list at the first occurrence of the segment `sep`,
returning the parts before and after it; `none` when `sep` never occurs.
Embeds `s.indexOf(sep)` followed by `s.substr(idx + sep.length)`. -/
def splitFirstSeg (sep : List Char) : List Char → Option (List Char × List Char)
  | [] => if startsWithSeg sep [] then some ([], []) else none
  | c :: cs =>
    if startsWithSeg sep (c :: cs) then some ([], (c :: cs).drop sep.length)
    else
      match splitFirstSeg sep cs with
      | some (pre, post) => some (c :: pre, post)
      | none => none

/-- Body-parsing tail of `readFirebaseString` (firebase.ts lines 221-243),
applied to the text after the first CRLF-CRLF separator: return `""` when
`"null"` occurs anywhere in the body (`body.indexOf("null") >= 0`); when the
body starts with a quote and a second quote exists, return the text between
them (`body.substr(1, endQuote - 1)`; the guard `endQuote > 0` always holds
since the search starts at index 1); otherwise fall through to the numeric
cleanup scan over the whole body. -/
def parseReadBody (body : String) : String :=
  if containsSub body "null" then ""
  else if body.data.head? = some '"' then
    match firstQuoteIdx body.data.tail with
    | some i => String.mk (body.data.tail.take i)
    | none => cleanScan body.data ""
  else cleanScan body.data ""

/-- State of one pass of the `parseStringToNumber` loop
(firebase.ts lines 82-85). -/
structure ParseState where
  result : Rat
  isNegative : Bool
  hasDecimal : Bool
  decimalPlace : Nat
  deriving DecidableEq

/-- One iteration of the `parseStringToNumber` loop (firebase.ts lines
87-104) on the character `c` at index `i`. -/
def parseStep (i : Nat) (c : Char) (s : ParseState) : ParseState :=
  if c = '-' ∧ i = 0 then { s with isNegative := true }
  else if c = '.' then { s with hasDecimal := true }
  else if '0' ≤ c ∧ c ≤ '9' then
    let digit : Rat := (c.toNat - 48 : Nat)
    if s.hasDecimal then
      { s with decimalPlace := s.decimalPlace + 1,
               result := s.result + digit / 10 ^ (s.decimalPlace + 1) }
    else
      { s with result := s.result * 10 + digit }
  else s

/-- Embedding of `parseStringToNumber` (firebase.ts lines 81-107); the
JavaScript `number` is modelled exactly by `Rat` (the loop only adds,
multiplies by 10 and divides by powers of ten). -/
def parseStringToNumber (valueStr : String) : Rat :=
  let final := valueStr.data.enum.foldl
    (fun s p => parseStep p.1 p.2 s) ⟨0, false, false, 0⟩
  if final.isNegative then -final.result else final.result

/-- Mutable namespace globals of the library, gathered into one record
(part_000 lines 6-8, firebase.ts lines 8-16). -/
structure St where
  esp8266Initialized : Bool
  wifiConnected : Bool
  firebaseApiKey : String
  firebaseDatabaseURL : String
  firebaseProjectId : String
  firebasePath : String
  firebaseDataSent : Bool
  deriving DecidableEq

/-- Serial-side effects of an operation, in issue order: an `AT+CIPSTART`
command (with its full text), an `AT+CIPSEND=<n>` command, an
`AT+CIPCLOSE` command, a raw `serial.writeString` of request bytes, or any
other AT command issued through `sendCommand`. -/
inductive Ev where
  | cipstart (cmd : String)
  | cipsend (len : Nat)
  | cipclose
  | write (s : String)
  | cmd (s : String)
  deriving DecidableEq

/-- Environment of one `readFirebaseString` call: outcomes of the two inner
`sendCommand` exchanges and the chunk stream drained by
`getResponse("", 3000)`. -/
structure ReadEnv where
  cipstartOk : Bool
  cipsendOk : Bool
  respFuel : Nat
  respChunks : List String

/-- Embedding of `readFirebaseString` (firebase.ts lines 174-244),
returning the string result together with the trace of serial effects.
The inner `sendCommand` outcomes are abstracted by the environment knobs;
`basic.pause` calls are timing-only and leave no trace. -/
def readFirebaseString (env : ReadEnv) (st : St) (deviceName : String) :
    String × List Ev :=
  if st.wifiConnected = false then ("", [])
  else if st.firebaseDatabaseURL = "" ∨ st.firebaseApiKey = "" then ("", [])
  else
    let fullPath := cleanPath (st.firebasePath ++ "/" ++ deviceName ++ "/value")
    let host := extractHost st.firebaseDatabaseURL
    let openCmd := "AT+CIPSTART=\"SSL\",\"" ++ host ++ "\",443"
    if env.cipstartOk = false then ("", [Ev.cipstart openCmd])
    else
      let requestPath := "/" ++ fullPath ++ ".json?auth=" ++ st.firebaseApiKey
      let httpRequest := "GET " ++ requestPath ++ " HTTP/1.1\r\n" ++
        "Host: " ++ host ++ "\r\n" ++ "Connection: close\r\n" ++ "\r\n"
      if env.cipsendOk = false then
        ("", [Ev.cipstart openCmd, Ev.cipsend httpRequest.length, Ev.cipclose])
      else
        let response := getResponse "" env.respFuel env.respChunks ""
        let result :=
          if containsSub response "200 OK" = false then ""
          else
            match splitFirstSeg "\r\n\r\n".data response.data with
            | none => ""
            | some (_, post) => parseReadBody (String.mk post)
        (result, [Ev.cipstart openCmd, Ev.cipsend httpRequest.length,
          Ev.write httpRequest, Ev.cipclose])

/-- Embedding of `readFirebaseNumber` (firebase.ts lines 254-258). -/
def readFirebaseNumber (env : ReadEnv) (st : St) (deviceName : String) : Rat :=
  let valueStr := (readFirebaseString env st deviceName).1
  if valueStr = "" then 0 else parseStringToNumber valueStr

/-- Environment of one `sendFirebaseData` call: outcomes of the two inner
`sendCommand` exchanges and the chunk streams drained by
`getResponse("SEND OK", 1500)` and `getResponse("", 1500)`. -/
structure SendEnv where
  cipstartOk : Bool
  cipsendOk : Bool
  ackFuel : Nat
  ackChunks : List String
  respFuel : Nat
  respChunks : List String

/-- Embedding of `sendFirebaseData` (firebase.ts lines 343-395), returning
the new value of the global `firebaseDataSent` flag (assigned `false`
first thing, `true` only at the single success point) together with the
trace.  The request itself is sent with `sendCommand(httpRequest, null,
100)`, hence traced as `Ev.cmd`. -/
def sendFirebaseData (env : SendEnv) (st : St) (path jsonData : String) :
    Bool × List Ev :=
  if st.wifiConnected = false then (false, [])
  else if st.firebaseDatabaseURL = "" ∨ st.firebaseApiKey = "" then (false, [])
  else
    let path' := cleanPath path
    let host := extractHost st.firebaseDatabaseURL
    let openCmd := "AT+CIPSTART=\"SSL\",\"" ++ host ++ "\",443"
    if env.cipstartOk = false then (false, [Ev.cipstart openCmd])
    else
      let requestPath := "/" ++ path' ++ ".json?auth=" ++ st.firebaseApiKey
      let httpRequest := "PATCH " ++ requestPath ++ " HTTP/1.1\r\n" ++
        "Host: " ++ host ++ "\r\n" ++ "Content-Type: application/json\r\n" ++
        "Content-Length: " ++ toString jsonData.length ++ "\r\n" ++
        "Connection: close\r\n" ++ "\r\n" ++ jsonData
      if env.cipsendOk = false then
        (false, [Ev.cipstart openCmd, Ev.cipsend httpRequest.length, Ev.cipclose])
      else
        let flag :=
          if getResponse "SEND OK" env.ackFuel env.ackChunks "" = "" then false
          else
            let response := getResponse "" env.respFuel env.respChunks ""
            response != "" && containsSub response "200"
        (flag, [Ev.cipstart openCmd, Ev.cipsend httpRequest.length,
          Ev.cmd httpRequest, Ev.cipclose])

/-- Environment of one `firebaseDelete` call. -/
structure DelEnv where
  cipstartOk : Bool
  cipsendOk : Bool

/-- Embedding of `firebaseDelete` (firebase.ts lines 537-570); the source
returns nothing and validates nothing after the write, so the model
returns only the trace. -/
def firebaseDelete (env : DelEnv) (st : St) (deviceName : String) : List Ev :=
  if st.wifiConnected = false then []
  else if st.firebaseDatabaseURL = "" ∨ st.firebaseApiKey = "" then []
  else
    let fullPath := cleanPath (st.firebasePath ++ "/" ++ deviceName)
    let host := extractHost st.firebaseDatabaseURL
    let openCmd := "AT+CIPSTART=\"SSL\",\"" ++ host ++ "\",443"
    if env.cipstartOk = false then [Ev.cipstart openCmd]
    else
      let requestPath := "/" ++ fullPath ++ ".json?auth=" ++ st.firebaseApiKey
      let httpRequest := "DELETE " ++ requestPath ++ " HTTP/1.1\r\n" ++
        "Host: " ++ host ++ "\r\n" ++ "Connection: close\r\n" ++ "\r\n"
      if env.cipsendOk = false then
        [Ev.cipstart openCmd, Ev.cipsend httpRequest.length, Ev.cipclose]
      else
        [Ev.cipstart openCmd, Ev.cipsend httpRequest.length,
         Ev.write httpRequest, Ev.cipclose]

/-- Environment of one `httpGet`/`httpPost` call: outcomes of the two inner
`sendCommand` exchanges and the chunk stream of the fixed-window drain
loop. -/
structure HttpEnv where
  cipstartOk : Bool
  cipsendOk : Bool
  drainFuel : Nat
  drainChunks : List String

/-- Embedding of `httpGet` (http.ts lines 118-150).  The drain loop
appends every chunk for a fixed window (no substring gate), modelled by
`accumFrom`. -/
def httpGet (env : HttpEnv) (st : St) (serverIp path : String) :
    String × List Ev :=
  if st.esp8266Initialized = false then ("", [])
  else if st.wifiConnected = false then ("", [])
  else
    let openCmd := "AT+CIPSTART=\"TCP\",\"" ++ serverIp ++ "\",80"
    if env.cipstartOk = false then ("", [Ev.cipstart openCmd])
    else
      let httpRequest := "GET " ++ path ++ " HTTP/1.1\r\n" ++
        "Host: " ++ serverIp ++ "\r\n" ++ "Connection: close\r\n\r\n"
      if env.cipsendOk = false then
        ("", [Ev.cipstart openCmd, Ev.cipsend httpRequest.length, Ev.cipclose])
      else
        (accumFrom "" env.drainChunks env.drainFuel,
         [Ev.cipstart openCmd, Ev.cipsend httpRequest.length,
          Ev.write httpRequest, Ev.cipclose])

/-- Embedding of `httpPost` (http.ts lines 161-196). -/
def httpPost (env : HttpEnv) (st : St) (serverIp path data : String) :
    String × List Ev :=
  if st.esp8266Initialized = false then ("", [])
  else if st.wifiConnected = false then ("", [])
  else
    let openCmd := "AT+CIPSTART=\"TCP\",\"" ++ serverIp ++ "\",80"
    if env.cipstartOk = false then ("", [Ev.cipstart openCmd])
    else
      let httpRequest := "POST " ++ path ++ " HTTP/1.1\r\n" ++
        "Host: " ++ serverIp ++ "\r\n" ++
        "Content-Type: application/json\r\n" ++
        "Content-Length: " ++ toString data.length ++ "\r\n" ++
        "Connection: close\r\n\r\n" ++ data
      if env.cipsendOk = false then
        ("", [Ev.cipstart openCmd, Ev.cipsend httpRequest.length, Ev.cipclose])
      else
        (accumFrom "" env.drainChunks env.drainFuel,
         [Ev.cipstart openCmd, Ev.cipsend httpRequest.length,
          Ev.write httpRequest, Ev.cipclose])

/-- Environment of one `getRawFromServer`/`sendToServer` call; `connectOk`
is the outcome of the inner `connectWiFi` (only consulted when WiFi is not
already connected). -/
structure RawEnv where
  connectOk : Bool
  cipstartOk : Bool
  cipsendOk : Bool
  drainFuel : Nat
  drainChunks : List String

/-- Embedding of `getRawFromServer` (http.ts lines 18-61), including the
inlined `connectWiFi` attempt (part_000 lines 115-130, which clears and
then possibly sets `wifiConnected`).  Returns result, updated state and
trace.  Note the send-intent length is `httpRequest.length + 2` in the
source while exactly `httpRequest` is written. -/
def getRawFromServer (env : RawEnv) (st : St)
    (serverIp ssid password path : String) : String × St × List Ev :=
  if st.esp8266Initialized = false then ("", st, [])
  else
    let cwjap := "AT+CWJAP=\"" ++ ssid ++ "\",\"" ++ password ++ "\""
    let conn : Bool × St × List Ev :=
      if st.wifiConnected then (true, st, [])
      else if env.connectOk then
        (true, { st with wifiConnected := true }, [Ev.cmd cwjap])
      else (false, { st with wifiConnected := false }, [Ev.cmd cwjap])
    if conn.1 = false then ("", conn.2.1, conn.2.2)
    else
      let openCmd := "AT+CIPSTART=\"TCP\",\"" ++ serverIp ++ "\",80"
      if env.cipstartOk = false then
        ("", conn.2.1, conn.2.2 ++ [Ev.cipstart openCmd])
      else
        let httpRequest := "GET " ++ path ++ " HTTP/1.1\r\n" ++
          "Host: " ++ serverIp ++ "\r\n" ++ "Connection: close\r\n\r\n"
        if env.cipsendOk = false then
          ("", conn.2.1, conn.2.2 ++
            [Ev.cipstart openCmd, Ev.cipsend (httpRequest.length + 2),
             Ev.cipclose])
        else
          (accumFrom "" env.drainChunks env.drainFuel, conn.2.1, conn.2.2 ++
            [Ev.cipstart openCmd, Ev.cipsend (httpRequest.length + 2),
             Ev.write httpRequest, Ev.cipclose])

/-- Embedding of `sendToServer` (http.ts lines 73-108); same structure as
`getRawFromServer` with a fixed `/tes.php` query request, a Boolean result,
and again a send-intent length of `httpRequest.length + 2`. -/
def sendToServer (env : RawEnv) (st : St)
    (serverIp ssid password data : String) : Bool × St × List Ev :=
  if st.esp8266Initialized = false then (false, st, [])
  else
    let cwjap := "AT+CWJAP=\"" ++ ssid ++ "\",\"" ++ password ++ "\""
    let conn : Bool × St × List Ev :=
      if st.wifiConnected then (true, st, [])
      else if env.connectOk then
        (true, { st with wifiConnected := true }, [Ev.cmd cwjap])
      else (false, { st with wifiConnected := false }, [Ev.cmd cwjap])
    if conn.1 = false then (false, conn.2.1, conn.2.2)
    else
      let openCmd := "AT+CIPSTART=\"TCP\",\"" ++ serverIp ++ "\",80"
      if env.cipstartOk = false then
        (false, conn.2.1, conn.2.2 ++ [Ev.cipstart openCmd])
      else
        let httpRequest := "GET /tes.php?" ++ data ++ " HTTP/1.1\r\n" ++
          "Host: " ++ serverIp ++ "\r\n" ++ "Connection: close\r\n\r\n"
        if env.cipsendOk = false then
          (false, conn.2.1, conn.2.2 ++
            [Ev.cipstart openCmd, Ev.cipsend (httpRequest.length + 2),
             Ev.cipclose])
        else
          (true, conn.2.1, conn.2.2 ++
            [Ev.cipstart openCmd, Ev.cipsend (httpRequest.length + 2),
             Ev.write httpRequest, Ev.cipclose])

/-- Embedding of `init` (part_000 lines 83-106).  `ok cmd marker` is the
outcome of `sendCommand(cmd, marker, ...)`; `serial.redirect`, the pauses
and the no-op `error(n)` handler are omitted.  The source never assigns
`esp8266Initialized = false`: an aborted sequence leaves the flag at its
prior value. -/
def init (ok : String → String → Bool) (st : St) : St × List Ev :=
  if ok "AT+RST" "ready" = false then (st, [Ev.cmd "AT+RST"])
  else if ok "ATE0" "OK" = false then (st, [Ev.cmd "AT+RST", Ev.cmd "ATE0"])
  else if ok "AT+CWMODE=1" "OK" = false then
    (st, [Ev.cmd "AT+RST", Ev.cmd "ATE0", Ev.cmd "AT+CWMODE=1"])
  else
    ({ st with esp8266Initialized := true },
     [Ev.cmd "AT+RST", Ev.cmd "ATE0", Ev.cmd "AT+CWMODE=1"])

/-! ## Concrete states and environments used in witnesses and
counterexamples -/

/-- State with the WiFi association and Firebase configuration present. -/
def stOk : St :=
  { esp8266Initialized := true, wifiConnected := true, firebaseApiKey := "k",
    firebaseDatabaseURL := "https://p.firebaseio.com", firebaseProjectId := "p",
    firebasePath := "iot", firebaseDataSent := false }

/-- State in which a previous bring-up already succeeded
(`esp8266Initialized = true`). -/
def stPrev : St :=
  { esp8266Initialized := true, wifiConnected := false, firebaseApiKey := "",
    firebaseDatabaseURL := "", firebaseProjectId := "", firebasePath := "iot",
    firebaseDataSent := false }

/-- State with WiFi not connected. -/
def stOff : St :=
  { esp8266Initialized := true, wifiConnected := false, firebaseApiKey := "k",
    firebaseDatabaseURL := "https://p.firebaseio.com", firebaseProjectId := "p",
    firebasePath := "iot", firebaseDataSent := false }

/-- Response with a non-200 status line whose body contains the text
`"200 OK"` (a stored string value). -/
def resp404 : String := "HTTP/1.1 404 Not Found\r\n\r\n\"200 OK\""

/-- Write environment in which the ack drain yields the non-`"SEND OK"`
junk `"x"` and the response drain yields a 200 status. -/
def envC3 : SendEnv := ⟨true, true, 1, ["x"], 1, ["HTTP/1.1 200"]⟩

/-- Write environment of a fully successful write (ack contains
`"SEND OK"`, response contains `"200"`). -/
def envC3w : SendEnv := ⟨true, true, 1, ["SEND OK"], 1, ["HTTP/1.1 200 OK"]⟩

/-- Serialized request text of `httpGet ... "h" "/"` (used in the C8
witness). -/
def httpGetReqW : String :=
  "GET / HTTP/1.1\r\nHost: h\r\nConnection: close\r\n\r\n"

/-- Serialized request text of `getRawFromServer ... "1.2.3.4" _ _ "/p"`
(used in the C8 counterexample). -/
def rawReq : String :=
  "GET /p HTTP/1.1\r\nHost: 1.2.3.4\r\nConnection: close\r\n\r\n"

/-- Successful response whose body is the quoted string `"nully"`, which
contains the text `null` (used in the C9 counterexample). -/
def respNully : String := "HTTP/1.1 200 OK\r\n\r\n\"nully\""

/-! ## Substring bridging lemmas -/

theorem startsWithSeg_iff : ∀ (p l : List Char), startsWithSeg p l = true ↔ p <+: l
  | [], l => by simp [startsWithSeg]
  | p :: ps, [] => by simp [startsWithSeg]
  | p :: ps, c :: cs => by
    simp [startsWithSeg, List.cons_prefix_cons, startsWithSeg_iff ps cs]

theorem hasSeg_iff : ∀ (p l : List Char), hasSeg p l = true ↔ p <:+: l
  | p, [] => by
    simp [hasSeg, startsWithSeg_iff]
  | p, c :: cs => by
    rw [hasSeg, Bool.or_eq_true, startsWithSeg_iff, hasSeg_iff p cs,
      ← List.infix_cons_iff]

/-- Boolean substring containment agrees with `List.IsInfix` on the
character data. -/
theorem containsSub_iff (s pat : String) :
    containsSub s pat = true ↔ pat.data <:+: s.data :=
  hasSeg_iff pat.data s.data

theorem containsSub_eq_false_iff (s pat : String) :
    containsSub s pat = false ↔ ¬ pat.data <:+: s.data := by
  rw [← containsSub_iff]
  cases containsSub s pat <;> simp

/-! ## Command Exchange (C1) -/

theorem accumFrom_succ (buf : String) (chunks : List String) (n : Nat) :
    accumFrom buf chunks (n + 1) =
      accumFrom (buf ++ chunks.headD "") chunks.tail n := rfl

theorem sendCommandPoll_succ (e : String) (n : Nat) (chunks : List String)
    (buf : String) :
    sendCommandPoll e (n + 1) chunks buf =
      (if containsSub (buf ++ chunks.headD "") e = true then true
       else if containsSub (buf ++ chunks.headD "") "ERROR" = true then false
       else sendCommandPoll e n chunks.tail (buf ++ chunks.headD "")) := rfl

/-- Characterization of the `sendCommand` polling loop: it returns `true`
exactly when the expected marker is found in the accumulated buffer at some
iteration `i` within the allotted fuel such that no strictly earlier
iteration saw the `"ERROR"` marker (within one iteration the expected
marker is checked first, so simultaneous appearance counts as success). -/
theorem sendCommandPoll_iff (e : String) :
    ∀ (fuel : Nat) (chunks : List String) (buf : String),
      sendCommandPoll e fuel chunks buf = true ↔
        ∃ i, 1 ≤ i ∧ i ≤ fuel ∧
          containsSub (accumFrom buf chunks i) e = true ∧
          ∀ j, 1 ≤ j → j < i →
            containsSub (accumFrom buf chunks j) "ERROR" = false := by
  intro fuel
  induction fuel with
  | zero =>
    intro chunks buf
    constructor
    · intro h
      simp [sendCommandPoll] at h
    · rintro ⟨i, h1, h2, -, -⟩
      omega
  | succ n ih =>
    intro chunks buf
    by_cases he : containsSub (buf ++ chunks.headD "") e = true
    · constructor
      · intro _
        exact ⟨1, le_refl 1, by omega, he, fun j hj1 hj2 => by omega⟩
      · intro _
        rw [sendCommandPoll_succ, if_pos he]
    · have he' : containsSub (buf ++ chunks.headD "") e = false := by
        revert he
        cases containsSub (buf ++ chunks.headD "") e <;> simp
      by_cases herr : containsSub (buf ++ chunks.headD "") "ERROR" = true
      · constructor
        · intro h
          rw [sendCommandPoll_succ, if_neg he, if_pos herr] at h
          exact absurd h (by decide)
        · rintro ⟨i, h1, h2, h3, h4⟩
          exfalso
          rcases Nat.lt_or_ge i 2 with hi | hi
          · have hi1 : i = 1 := by omega
            subst hi1
            rw [show accumFrom buf chunks 1 = buf ++ chunks.headD "" from rfl]
              at h3
            rw [h3] at he'
            exact absurd he' (by decide)
          · have h41 := h4 1 (le_refl 1) (by omega)
            rw [show accumFrom buf chunks 1 = buf ++ chunks.headD "" from rfl]
              at h41
            rw [h41] at herr
            exact absurd herr (by decide)
      · have herr' : containsSub (buf ++ chunks.headD "") "ERROR" = false := by
          revert herr
          cases containsSub (buf ++ chunks.headD "") "ERROR" <;> simp
        have hstep : sendCommandPoll e (n + 1) chunks buf =
            sendCommandPoll e n chunks.tail (buf ++ chunks.headD "") := by
          rw [sendCommandPoll_succ, if_neg he, if_neg herr]
        rw [hstep, ih chunks.tail (buf ++ chunks.headD "")]
        constructor
        · rintro ⟨i, h1, h2, h3, h4⟩
          refine ⟨i + 1, by omega, by omega, ?_, ?_⟩
          · rw [accumFrom_succ]
            exact h3
          · intro j hj1 hj2
            rcases Nat.lt_or_ge j 2 with hj | hj
            · have hj1' : j = 1 := by omega
              subst hj1'
              exact herr'
            · obtain ⟨k, rfl⟩ : ∃ k, j = k + 1 := ⟨j - 1, by omega⟩
              rw [accumFrom_succ]
              exact h4 k (by omega) (by omega)
        · rintro ⟨i, h1, h2, h3, h4⟩
          rcases Nat.lt_or_ge i 2 with hi | hi
          · exfalso
            have hi1 : i = 1 := by omega
            subst hi1
            rw [show accumFrom buf chunks 1 = buf ++ chunks.headD "" from rfl]
              at h3
            rw [h3] at he'
            exact absurd he' (by decide)
          · obtain ⟨k, rfl⟩ : ∃ k, i = k + 1 := ⟨i - 1, by omega⟩
            refine ⟨k, by omega, by omega, ?_, ?_⟩
            · rw [← accumFrom_succ]
              exact h3
            · intro j hj1 hj2
              have := h4 (j + 1) (by omega) (by omega)
              rw [accumFrom_succ] at this
              exact this

/-- C1: for every command, expected marker E and timeout (number of poll
iterations), `sendCommand` returns true iff E appears as a substring of the
accumulated receive buffer at some iteration within the timeout such that no
strictly earlier iteration's buffer contained `"ERROR"` (within one
iteration E is checked before `"ERROR"`, so simultaneous appearance is a
success); it returns false when `"ERROR"` appears first or the timeout
elapses with neither; with no expected marker it returns true immediately. -/
theorem C1_command_exchange :
    (∀ (fuel : Nat) (chunks : List String), sendCommand none fuel chunks = true) ∧
    (∀ (e : String) (fuel : Nat) (chunks : List String),
      sendCommand (some e) fuel chunks = true ↔
        ∃ i, 1 ≤ i ∧ i ≤ fuel ∧ e.data <:+: (accum chunks i).data ∧
          ∀ j, 1 ≤ j → j < i → ¬ "ERROR".data <:+: (accum chunks j).data) := by
  refine ⟨fun fuel chunks => rfl, fun e fuel chunks => ?_⟩
  rw [show sendCommand (some e) fuel chunks = sendCommandPoll e fuel chunks ""
      from rfl, sendCommandPoll_iff]
  simp only [accum]
  constructor
  · rintro ⟨i, h1, h2, h3, h4⟩
    refine ⟨i, h1, h2, (containsSub_iff _ _).mp h3, fun j hj1 hj2 => ?_⟩
    exact (containsSub_eq_false_iff _ _).mp (h4 j hj1 hj2)
  · rintro ⟨i, h1, h2, h3, h4⟩
    refine ⟨i, h1, h2, (containsSub_iff _ _).mpr h3, fun j hj1 hj2 => ?_⟩
    exact (containsSub_eq_false_iff _ _).mpr (h4 j hj1 hj2)

/-- Witness for C1 at concrete inputs: fire-and-forget returns true, and a
marker that arrives in the first chunk yields true. -/
theorem C1_command_exchange_witness :
    sendCommand none 0 [] = true ∧ sendCommand (some "OK") 1 ["OK"] = true := by
  refine ⟨C1_command_exchange.1 0 [], (C1_command_exchange.2 "OK" 1 ["OK"]).mpr ?_⟩
  exact ⟨1, le_refl 1, le_refl 1, by decide, fun j hj1 hj2 => by omega⟩

/-! ## Bring-up (C5) -/

/-- C5 (amended): `init` runs reset (gated on `"ready"`), echo-off (gated on
`"OK"`), station-mode (gated on `"OK"`) in order and aborts at the first
failing step, skipping the rest; `initialized` becomes true only when the
full sequence succeeds, and otherwise keeps its prior value (the source
never assigns it false), so an aborted bring-up leaves it false only when it
was false before. -/
theorem C5_init_amended :
    ∀ (ok : String → String → Bool) (st : St),
      ((init ok st).1.esp8266Initialized =
        (if ok "AT+RST" "ready" && ok "ATE0" "OK" && ok "AT+CWMODE=1" "OK"
         then true else st.esp8266Initialized)) ∧
      ((init ok st).2 =
        if ok "AT+RST" "ready" = false then [Ev.cmd "AT+RST"]
        else if ok "ATE0" "OK" = false then [Ev.cmd "AT+RST", Ev.cmd "ATE0"]
        else [Ev.cmd "AT+RST", Ev.cmd "ATE0", Ev.cmd "AT+CWMODE=1"]) := by
  intro ok st
  cases h1 : ok "AT+RST" "ready" <;> cases h2 : ok "ATE0" "OK" <;>
    cases h3 : ok "AT+CWMODE=1" "OK" <;> simp [init, h1, h2, h3]

/-- C5 counterexample: when a previous bring-up already set the flag, a new
bring-up aborted at the very first (reset) step still leaves
`esp8266Initialized = true`, contradicting the claim that after any partial
bring-up the flag is false regardless of its prior value. -/
theorem C5_counterexample :
    (init (fun _ _ => false) stPrev).1.esp8266Initialized = true ∧
    (init (fun _ _ => false) stPrev).2 = [Ev.cmd "AT+RST"] := by
  exact ⟨rfl, rfl⟩

/-! ## Host extraction (C6) -/

theorem extractHost_fixed (s : String)
    (h1 : containsSub s "https://" = false)
    (h2 : containsSub s "http://" = false)
    (h3 : ¬ s.data.getLast? = some '/') :
    extractHost s = s := by
  simp [extractHost, h1, h2, h3]

/-- C6 (amended): `extractHost` drops a fixed 8-character prefix when
`"https://"` occurs anywhere, then a fixed 7-character prefix when
`"http://"` occurs in the result, then at most one trailing slash; a second
application is the identity whenever the once-applied result contains
neither scheme marker and does not end with a slash.  Unconditional
idempotence fails (see the counterexample). -/
theorem C6_extractHost_amended :
    ∀ url : String,
      containsSub (extractHost url) "https://" = false →
      containsSub (extractHost url) "http://" = false →
      ¬ (extractHost url).data.getLast? = some '/' →
      extractHost (extractHost url) = extractHost url :=
  fun _ h1 h2 h3 => extractHost_fixed _ h1 h2 h3

/-- Witness for C6 at a concrete URL whose once-applied result is a bare
host. -/
theorem C6_extractHost_amended_witness :
    containsSub (extractHost "https://example.com/x") "https://" = false ∧
    extractHost (extractHost "https://example.com/x") =
      extractHost "https://example.com/x" :=
  ⟨by decide,
   C6_extractHost_amended "https://example.com/x" (by decide) (by decide)
     (by decide)⟩

/-- C6 counterexample: `extractHost` is not idempotent — a second trailing
slash (`"a//"`) or a second scheme occurrence (`"https://https://x"`) is
stripped only by the second application. -/
theorem C6_counterexample :
    extractHost (extractHost "a//") ≠ extractHost "a//" ∧
    extractHost (extractHost "https://https://x") ≠
      extractHost "https://https://x" := by
  exact ⟨by decide, by decide⟩

/-! ## Decimal parser (C7) -/

/-- C7: the decimal parser builds the integer part by
multiply-by-10-and-add, accumulates post-dot digits as `digit / 10^place`,
negates on a leading minus, and leaves the state untouched on every
character that is not a digit, not a dot and not a minus at position 0; in
particular `"-12.34"` parses to `-12.34`, `"0042"` to `42`, and `"12.3.4"`
to `12.34` (the second dot re-sets the already-set decimal flag, which is
observationally a skip). -/
theorem C7_decimal_parse :
    parseStringToNumber "-12.34" = -(1234 / 100 : Rat) ∧
    parseStringToNumber "0042" = 42 ∧
    parseStringToNumber "12.3.4" = (1234 / 100 : Rat) ∧
    (∀ (i : Nat) (c : Char) (s : ParseState),
      ¬(c = '-' ∧ i = 0) → ¬ c = '.' → ¬('0' ≤ c ∧ c ≤ '9') →
      parseStep i c s = s) := by
  refine ⟨?_, ?_, ?_, ?_⟩
  · have h : "-12.34".data = ['-', '1', '2', '.', '3', '4'] := rfl
    simp [parseStringToNumber, parseStep, h, List.enum, List.enumFrom]
    norm_num
  · have h : "0042".data = ['0', '0', '4', '2'] := rfl
    simp [parseStringToNumber, parseStep, h, List.enum, List.enumFrom]
    norm_num
  · have h : "12.3.4".data = ['1', '2', '.', '3', '.', '4'] := rfl
    simp [parseStringToNumber, parseStep, h, List.enum, List.enumFrom]
    norm_num
  · intro i c s h1 h2 h3
    unfold parseStep
    rw [if_neg h1, if_neg h2, if_neg h3]

/-- Witness for C7's skip clause at a concrete non-special character. -/
theorem C7_decimal_parse_witness :
    parseStep 3 'x' ⟨0, false, false, 0⟩ = ⟨0, false, false, 0⟩ :=
  C7_decimal_parse.2.2.2 3 'x' ⟨0, false, false, 0⟩ (by decide) (by decide)
    (by decide)

/-! ## Failed numeric reads (C10) -/

/-- C10: whenever the underlying string read yields the empty string (WiFi
down, missing configuration, session failure, non-200 status, null value),
`readFirebaseNumber` returns 0; and a successful read of the stored text
`"0"` also returns 0, so a failed read is indistinguishable from a stored
zero at the numeric interface. -/
theorem C10_number_read_zero :
    (∀ (env : ReadEnv) (st : St) (d : String),
      (readFirebaseString env st d).1 = "" → readFirebaseNumber env st d = 0) ∧
    (∀ (env : ReadEnv) (st : St) (d : String),
      (readFirebaseString env st d).1 = "0" → readFirebaseNumber env st d = 0) := by
  constructor
  · intro env st d h
    simp [readFirebaseNumber, h]
  · intro env st d h
    simp only [readFirebaseNumber, h]
    have h0 : "0".data = ['0'] := rfl
    simp [parseStringToNumber, parseStep, h0, List.enum, List.enumFrom]

/-- Witness for C10: a read with WiFi down yields `""` and the numeric read
yields 0. -/
theorem C10_number_read_zero_witness :
    readFirebaseNumber ⟨true, true, 0, []⟩ stOff "d" = 0 :=
  C10_number_read_zero.1 ⟨true, true, 0, []⟩ stOff "d" rfl

/-! ## Non-200 reads (C4) -/

/-- C4 (amended): whenever the text `"200 OK"` does not occur anywhere in
the accumulated response, `readFirebaseString` returns the empty string
regardless of the rest of the content.  The source checks the whole
response (`response.indexOf("200 OK")`), not the status line, so a body
containing `"200 OK"` also passes the check (see the counterexample). -/
theorem C4_non200_empty :
    ∀ (env : ReadEnv) (st : St) (d : String),
      ¬ "200 OK".data <:+:
        (getResponse "" env.respFuel env.respChunks "").data →
      (readFirebaseString env st d).1 = "" := by
  intro env st d h
  have hb : containsSub (getResponse "" env.respFuel env.respChunks "")
      "200 OK" = false := (containsSub_eq_false_iff _ _).mpr h
  unfold readFirebaseString
  split_ifs with h1 h2 h3 h4 <;> simp_all

/-- Witness for C4: a plain 404 response yields an empty read. -/
theorem C4_non200_empty_witness :
    (readFirebaseString ⟨true, true, 1, ["HTTP/1.1 404 Not Found"]⟩ stOk "d").1
      = "" :=
  C4_non200_empty ⟨true, true, 1, ["HTTP/1.1 404 Not Found"]⟩ stOk "d"
    (by decide)

/-- C4 counterexample: the status line is `404 Not Found`, yet because the
body contains the text `"200 OK"` the check passes and the read returns
`"200 OK"` instead of the empty string the claim requires. -/
theorem C4_counterexample :
    (readFirebaseString ⟨true, true, 1, [resp404]⟩ stOk "d").1 = "200 OK" ∧
    containsSub "HTTP/1.1 404 Not Found" "200 OK" = false := by
  exact ⟨by decide, by decide⟩

/-! ## Write acknowledgement and flag (C3) -/

/-- C3 (amended): the write clears `firebaseDataSent` to false at the start
of every attempt (every non-success path yields false regardless of the
prior flag value) and sets it true exactly when WiFi and configuration
checks pass, session open and send-intent succeed, the `"SEND OK"`-gated
drain returns a NON-EMPTY accumulated response (the source only compares
that drain's result against `""`, so any non-empty junk passes even if
`"SEND OK"` never appeared), and the subsequent response drain is non-empty
and contains `"200"`. -/
theorem C3_write_flag :
    ∀ (env : SendEnv) (st : St) (path jsonData : String),
      (sendFirebaseData env st path jsonData).1 = true ↔
        (st.wifiConnected = true ∧
         ¬(st.firebaseDatabaseURL = "" ∨ st.firebaseApiKey = "") ∧
         env.cipstartOk = true ∧ env.cipsendOk = true ∧
         ¬ getResponse "SEND OK" env.ackFuel env.ackChunks "" = "" ∧
         ¬ getResponse "" env.respFuel env.respChunks "" = "" ∧
         containsSub (getResponse "" env.respFuel env.respChunks "") "200"
           = true) := by
  intro env st path jsonData
  unfold sendFirebaseData
  split_ifs with h1 h2 h3 h4 h5 <;>
    simp_all [bne_iff_ne]

/-- Witness for C3 at a fully successful concrete write. -/
theorem C3_write_flag_witness :
    (sendFirebaseData envC3w stOk "p" "d").1 = true :=
  (C3_write_flag envC3w stOk "p" "d").mpr (by decide)

/-- C3 counterexample: the ack drain returns the junk `"x"` — `"SEND OK"`
never appears in the accumulated response — yet the flag still ends up
true, contradicting the claim that the explicit `"SEND OK"` marker is
required before the 200 check. -/
theorem C3_counterexample :
    (sendFirebaseData envC3 stOk "p" "d").1 = true ∧
    containsSub (getResponse "SEND OK" envC3.ackFuel envC3.ackChunks "")
      "SEND OK" = false := by
  exact ⟨by decide, by decide⟩

/-! ## Session cleanup (C2) -/

/-- C2: for each of `readFirebaseString`, `sendFirebaseData`,
`firebaseDelete`, `httpGet` and `httpPost`, once the session-open command
(`AT+CIPSTART`) has been issued and succeeded, every code path of the call
— success, send-intent failure, missing acknowledgement, non-200 status —
issues an explicit `AT+CIPCLOSE` before the call returns. -/
theorem C2_sessions_closed :
    (∀ (env : ReadEnv) (st : St) (d : String), env.cipstartOk = true →
      (∃ s, Ev.cipstart s ∈ (readFirebaseString env st d).2) →
      Ev.cipclose ∈ (readFirebaseString env st d).2) ∧
    (∀ (env : SendEnv) (st : St) (p j : String), env.cipstartOk = true →
      (∃ s, Ev.cipstart s ∈ (sendFirebaseData env st p j).2) →
      Ev.cipclose ∈ (sendFirebaseData env st p j).2) ∧
    (∀ (env : DelEnv) (st : St) (d : String), env.cipstartOk = true →
      (∃ s, Ev.cipstart s ∈ firebaseDelete env st d) →
      Ev.cipclose ∈ firebaseDelete env st d) ∧
    (∀ (env : HttpEnv) (st : St) (ip pa : String), env.cipstartOk = true →
      (∃ s, Ev.cipstart s ∈ (httpGet env st ip pa).2) →
      Ev.cipclose ∈ (httpGet env st ip pa).2) ∧
    (∀ (env : HttpEnv) (st : St) (ip pa da : String), env.cipstartOk = true →
      (∃ s, Ev.cipstart s ∈ (httpPost env st ip pa da).2) →
      Ev.cipclose ∈ (httpPost env st ip pa da).2) := by
  refine ⟨?_, ?_, ?_, ?_, ?_⟩
  · intro env st d hok hstart
    obtain ⟨s, hs⟩ := hstart
    revert hs
    unfold readFirebaseString
    split_ifs <;> intro hs <;> simp_all
  · intro env st p j hok hstart
    obtain ⟨s, hs⟩ := hstart
    revert hs
    unfold sendFirebaseData
    split_ifs <;> intro hs <;> simp_all
  · intro env st d hok hstart
    obtain ⟨s, hs⟩ := hstart
    revert hs
    unfold firebaseDelete
    split_ifs <;> intro hs <;> simp_all
  · intro env st ip pa hok hstart
    obtain ⟨s, hs⟩ := hstart
    revert hs
    unfold httpGet
    split_ifs <;> intro hs <;> simp_all
  · intro env st ip pa da hok hstart
    obtain ⟨s, hs⟩ := hstart
    revert hs
    unfold httpPost
    split_ifs <;> intro hs <;> simp_all

/-- Witness for C2: a concrete successful read opens the session and its
trace contains the close command. -/
theorem C2_sessions_closed_witness :
    Ev.cipclose ∈ (readFirebaseString ⟨true, true, 0, []⟩ stOk "d").2 :=
  C2_sessions_closed.1 ⟨true, true, 0, []⟩ stOk "d" rfl
    ⟨"AT+CIPSTART=\"SSL\",\"p.firebaseio.com\",443", by decide⟩

/-! ## Send-intent lengths (C8) -/

/-- C8 (amended): `httpGet` and `httpPost` pass to `AT+CIPSEND=` exactly
the byte length of the serialized request text subsequently written to the
channel, while `getRawFromServer` and `sendToServer` pass that length plus
2 even though exactly the request text is written (see the
counterexample). -/
theorem C8_cipsend_length :
    (∀ (env : HttpEnv) (st : St) (ip pa : String) (n : Nat) (r : String),
      Ev.cipsend n ∈ (httpGet env st ip pa).2 →
      Ev.write r ∈ (httpGet env st ip pa).2 → n = r.length) ∧
    (∀ (env : HttpEnv) (st : St) (ip pa da : String) (n : Nat) (r : String),
      Ev.cipsend n ∈ (httpPost env st ip pa da).2 →
      Ev.write r ∈ (httpPost env st ip pa da).2 → n = r.length) ∧
    (∀ (env : RawEnv) (st : St) (ip ss pw pa : String) (n : Nat) (r : String),
      Ev.cipsend n ∈ (getRawFromServer env st ip ss pw pa).2.2 →
      Ev.write r ∈ (getRawFromServer env st ip ss pw pa).2.2 →
      n = r.length + 2) ∧
    (∀ (env : RawEnv) (st : St) (ip ss pw da : String) (n : Nat) (r : String),
      Ev.cipsend n ∈ (sendToServer env st ip ss pw da).2.2 →
      Ev.write r ∈ (sendToServer env st ip ss pw da).2.2 →
      n = r.length + 2) := by
  refine ⟨?_, ?_, ?_, ?_⟩
  · intro env st ip pa n r hn hr
    revert hn hr
    unfold httpGet
    split_ifs <;> intro hn hr <;> simp_all
  · intro env st ip pa da n r hn hr
    revert hn hr
    unfold httpPost
    split_ifs <;> intro hn hr <;> simp_all
  · intro env st ip ss pw pa n r hn hr
    revert hn hr
    unfold getRawFromServer
    split_ifs <;> intro hn hr <;> simp_all
  · intro env st ip ss pw da n r hn hr
    revert hn hr
    unfold sendToServer
    split_ifs <;> intro hn hr <;> simp_all

/-- Witness for C8: a concrete `httpGet` whose send-intent length equals
the written request's length. -/
theorem C8_cipsend_length_witness :
    Ev.cipsend httpGetReqW.length ∈ (httpGet ⟨true, true, 0, []⟩ stOk "h" "/").2 ∧
    Ev.write httpGetReqW ∈ (httpGet ⟨true, true, 0, []⟩ stOk "h" "/").2 ∧
    httpGetReqW.length = httpGetReqW.length :=
  ⟨by decide, by decide,
   C8_cipsend_length.1 ⟨true, true, 0, []⟩ stOk "h" "/" httpGetReqW.length
     httpGetReqW (by decide) (by decide)⟩

/-- C8 counterexample: `getRawFromServer` declares `AT+CIPSEND=` with the
request length plus 2, but writes exactly the request, so the declared
length is not the byte length of the written text. -/
theorem C8_counterexample :
    Ev.cipsend (rawReq.length + 2) ∈
      (getRawFromServer ⟨true, true, true, 0, []⟩ stOk "1.2.3.4" "s" "w" "/p").2.2 ∧
    Ev.write rawReq ∈
      (getRawFromServer ⟨true, true, true, 0, []⟩ stOk "1.2.3.4" "s" "w" "/p").2.2 ∧
    rawReq.length + 2 ≠ rawReq.length := by
  exact ⟨by decide, by decide, by decide⟩

/-! ## Read-body extraction (C9) -/

theorem firstQuoteIdx_append (pre suf : List Char) (h : '"' ∉ pre) :
    firstQuoteIdx (pre ++ '"' :: suf) = some pre.length := by
  induction pre with
  | nil => simp [firstQuoteIdx]
  | cons c cs ih =>
    have hc : ¬ c = '"' := by
      intro hc
      exact h (by simp [hc])
    have hcs : '"' ∉ cs := fun hm => h (List.mem_cons_of_mem c hm)
    simp [firstQuoteIdx, hc, ih hcs]

theorem firstQuoteIdx_none (l : List Char) (h : '"' ∉ l) :
    firstQuoteIdx l = none := by
  induction l with
  | nil => rfl
  | cons c cs ih =>
    have hc : ¬ c = '"' := by
      intro hc
      exact h (by simp [hc])
    simp [firstQuoteIdx, hc, ih (fun hm => h (List.mem_cons_of_mem c hm))]

/-- C9 (amended): on the success path (session opened and send-intent
acknowledged, response containing `"200 OK"`, CRLF-CRLF separator present)
the read returns the parse of the text after the FIRST separator, where the
parse returns empty whenever `"null"` occurs ANYWHERE in the body (not only
when the body is the literal `null`); when the body starts with a quote and
a second quote exists it returns the text between them; and otherwise —
including a quote-opened body with no closing quote — it falls through to
the numeric scan, which skips characters before the first kept
digit/dot/minus and stops at the first character outside that set after
it. -/
theorem C9_read_body :
    (∀ (env : ReadEnv) (st : St) (d : String) (pre post : List Char),
      st.wifiConnected = true →
      ¬(st.firebaseDatabaseURL = "" ∨ st.firebaseApiKey = "") →
      env.cipstartOk = true → env.cipsendOk = true →
      containsSub (getResponse "" env.respFuel env.respChunks "") "200 OK"
        = true →
      splitFirstSeg "\r\n\r\n".data
        (getResponse "" env.respFuel env.respChunks "").data
        = some (pre, post) →
      (readFirebaseString env st d).1 = parseReadBody (String.mk post)) ∧
    (∀ body : String, "null".data <:+: body.data → parseReadBody body = "") ∧
    (∀ (pre suf : List Char), '"' ∉ pre →
      ¬ "null".data <:+: ('"' :: (pre ++ '"' :: suf)) →
      parseReadBody (String.mk ('"' :: (pre ++ '"' :: suf))) = String.mk pre) ∧
    (∀ body : String, ¬ "null".data <:+: body.data →
      (body.data.head? = some '"' → '"' ∉ body.data.tail) →
      parseReadBody body = cleanScan body.data "") := by
  refine ⟨?_, ?_, ?_, ?_⟩
  · intro env st d pre post h1 h2 h3 h4 h5 hsp
    unfold readFirebaseString
    rw [if_neg (by simp [h1]), if_neg h2, if_neg (by simp [h3]),
      if_neg (by simp [h4])]
    simp [h5, hsp]
  · intro body h
    unfold parseReadBody
    rw [if_pos ((containsSub_iff _ _).mpr h)]
  · intro pre suf hpre hnull
    have hq : ¬ containsSub (String.mk ('"' :: (pre ++ '"' :: suf))) "null"
        = true := by
      rw [containsSub_iff]
      exact hnull
    have hh : (String.mk ('"' :: (pre ++ '"' :: suf))).data.head? = some '"' :=
      rfl
    unfold parseReadBody
    rw [if_neg hq, if_pos hh]
    rw [show (String.mk ('"' :: (pre ++ '"' :: suf))).data.tail
        = pre ++ '"' :: suf from rfl]
    rw [firstQuoteIdx_append pre suf hpre]
    simp [List.take_left]
  · intro body hnull hq
    have h0 : ¬ containsSub body "null" = true := by
      rw [containsSub_iff]
      exact hnull
    unfold parseReadBody
    rw [if_neg h0]
    by_cases hh : body.data.head? = some '"'
    · rw [if_pos hh, firstQuoteIdx_none _ (hq hh)]
    · rw [if_neg hh]

/-- Witness for C9's success-path clause at a concrete bare-number body. -/
theorem C9_read_body_witness :
    (readFirebaseString ⟨true, true, 1, ["HTTP/1.1 200 OK\r\n\r\n42"]⟩ stOk
      "d").1 = parseReadBody (String.mk "42".data) :=
  C9_read_body.1 ⟨true, true, 1, ["HTTP/1.1 200 OK\r\n\r\n42"]⟩ stOk "d"
    "HTTP/1.1 200 OK".data "42".data rfl (by decide) rfl rfl (by decide)
    (by decide)

/-- C9 counterexample: the body is the quoted string `"nully"` — not the
literal `null`, and starting with a quote — yet the read returns `""`
instead of the text `nully` between the quotes, because the source tests
`body.indexOf("null") >= 0` over the whole body. -/
theorem C9_counterexample :
    (readFirebaseString ⟨true, true, 1, [respNully]⟩ stOk "d").1 = "" ∧
    splitFirstSeg "\r\n\r\n".data respNully.data =
      some ("HTTP/1.1 200 OK".data, "\"nully\"".data) ∧
    ("\"nully\"" : String) ≠ "null" := by
  exact ⟨by decide, by decide, by decide⟩

end Esp

